import Mathlib

/-!
Shallow embedding of the AxelarNode reconciler from
`operator/pkg/controller/axelarnetwork_controller.go` and the resource schema
from `operator/pkg/apis/blockchain/v1alpha1/axelarnode_types.go`.

Go structs become Lean structures with the same field names (lower-cased where
Go exports them); `int32`/`int64` become `Int` (no arithmetic overflows the
code could hit), `*T` becomes `Option T`, maps become association lists keyed
by name, and `time.Time` values become an abstract `Nat` clock value passed in
by the caller.  The Kubernetes client is modelled as an explicit object store
(`RState`); every mutating API call is recorded in a `WriteOp` trace so that
claims about "no mutating writes" are about the calls the code issues, not
just about the resulting state.
-/

/-! ## Resource schema (axelarnode_types.go) -/

/-- ImageSpec: container image configuration. -/
structure ImageSpec where
  repository : String
  tag : String
  pullPolicy : String
deriving DecidableEq

/-- BackupSpec: backup configuration. -/
structure BackupSpec where
  enabled : Bool
  schedule : String
  retention : String
deriving DecidableEq

/-- StorageSpec: storage configuration. -/
structure StorageSpec where
  size : String
  storageClass : String
  backup : BackupSpec
deriving DecidableEq

/-- KeyManagementSpec: key management configuration. -/
structure KeyManagementSpec where
  autoRotation : Bool
  rotationSchedule : String
  backupKeys : Bool
deriving DecidableEq

/-- SlashingSpec: slashing protection configuration. -/
structure SlashingSpec where
  protection : Bool
  maxMissedBlocks : Int
deriving DecidableEq

/-- ValidatorSpec: validator-specific configuration. -/
structure ValidatorSpec where
  enabled : Bool
  keyManagement : KeyManagementSpec
  slashing : SlashingSpec
deriving DecidableEq

/-- P2PSpec: P2P networking configuration. -/
structure P2PSpec where
  port : Int
  externalAddress : String
  persistentPeers : List String
  seeds : List String
deriving DecidableEq

/-- RPCSpec: RPC configuration. -/
structure RPCSpec where
  enabled : Bool
  port : Int
  cors : Bool
deriving DecidableEq

/-- APISpec: API configuration. -/
structure APISpec where
  enabled : Bool
  port : Int
deriving DecidableEq

/-- NetworkingSpec groups the P2P, RPC and API sub-specs. -/
structure NetworkingSpec where
  p2p : P2PSpec
  rpc : RPCSpec
  api : APISpec
deriving DecidableEq

/-- PrometheusSpec: metrics endpoint configuration. -/
structure PrometheusSpec where
  port : Int
  path : String
deriving DecidableEq

/-- SlackSpec: Slack alerting configuration. -/
structure SlackSpec where
  webhook : String
  channel : String
deriving DecidableEq

/-- AlertsSpec: alerting configuration. -/
structure AlertsSpec where
  enabled : Bool
  slack : SlackSpec
deriving DecidableEq

/-- MonitoringSpec: monitoring configuration. -/
structure MonitoringSpec where
  enabled : Bool
  prometheus : PrometheusSpec
  alerts : AlertsSpec
deriving DecidableEq

/-- UpgradeSpec: upgrade configuration (strategy is one of rolling, recreate, manual). -/
structure UpgradeSpec where
  strategy : String
  autoUpgrade : Bool
  preUpgradeBackup : Bool
  rollbackOnFailure : Bool
deriving DecidableEq

/-- SecretManagementSpec: secret management configuration. -/
structure SecretManagementSpec where
  provider : String
  autoRotation : Bool
deriving DecidableEq

/-- SecuritySpec: security configuration; the pod security context is an
opaque passthrough so it is modelled as an optional opaque tag. -/
structure SecuritySpec where
  podSecurityContext : Option String
  networkPolicies : Bool
  secretManagement : SecretManagementSpec
deriving DecidableEq

/-- AxelarNodeSpec: desired state of an AxelarNode.  `resources` is an opaque
passthrough (corev1.ResourceRequirements) modelled as a tag. -/
structure AxelarNodeSpec where
  nodeType : String
  network : String
  moniker : String
  image : ImageSpec
  resources : String
  storage : StorageSpec
  validator : Option ValidatorSpec
  networking : NetworkingSpec
  monitoring : MonitoringSpec
  upgrade : UpgradeSpec
  security : SecuritySpec
deriving DecidableEq

/-- SyncInfo: blockchain synchronization information. -/
structure SyncInfo where
  currentHeight : Int
  latestHeight : Int
  catchingUp : Bool
  lastSyncTime : Option Nat
deriving DecidableEq

/-- NetworkInfo: network information. -/
structure NetworkInfo where
  peers : Int
  nodeID : String
  network : String
deriving DecidableEq

/-- ValidatorInfo: validator information. -/
structure ValidatorInfo where
  address : String
  votingPower : Int
  missedBlocks : Int
  lastSignedHeight : Int
deriving DecidableEq

/-- AxelarNodeStatus: observed state of an AxelarNode (conditions and backup
or upgrade timestamps are not touched by the reconciler and are omitted). -/
structure AxelarNodeStatus where
  phase : String
  syncInfo : SyncInfo
  networkInfo : NetworkInfo
  validatorInfo : Option ValidatorInfo
deriving DecidableEq

/-- AxelarNode: the custom resource, with the metadata fields the reconciler
reads (name, namespace, finalizers, deletion timestamp). -/
structure AxelarNode where
  name : String
  nspace : String
  finalizers : List String
  deletionTimestamp : Option Nat
  spec : AxelarNodeSpec
  status : AxelarNodeStatus
deriving DecidableEq

/-! ## Kubernetes object model (the parts the controller produces or reads) -/

/-- SecretKeySelector: a reference to one key of a named secret. -/
structure SecretKeySelector where
  name : String
  key : String
deriving DecidableEq

/-- EnvVar: either a literal value or a secret-key reference (corev1.EnvVar
with Value and ValueFrom.SecretKeyRef). -/
structure EnvVar where
  name : String
  value : String := ""
  valueFrom : Option SecretKeySelector := none
deriving DecidableEq

/-- ContainerPort: a named container port. -/
structure ContainerPort where
  name : String
  containerPort : Int
deriving DecidableEq

/-- VolumeMount: a named volume mounted at a path. -/
structure VolumeMount where
  name : String
  mountPath : String
deriving DecidableEq

/-- HTTPGetAction: an HTTP probe target. -/
structure HTTPGetAction where
  path : String
  port : Int
deriving DecidableEq

/-- Probe: an HTTP probe with its timing. -/
structure Probe where
  httpGet : HTTPGetAction
  initialDelaySeconds : Int
  periodSeconds : Int
deriving DecidableEq

/-- Container: the fields of corev1.Container the controller sets. -/
structure Container where
  name : String
  image : String
  imagePullPolicy : String := ""
  command : List String := []
  args : List String := []
  env : List EnvVar := []
  ports : List ContainerPort := []
  resources : String := ""
  volumeMounts : List VolumeMount := []
  livenessProbe : Option Probe := none
  readinessProbe : Option Probe := none
deriving DecidableEq

/-- VolumeSource: a PVC claim or a config map reference. -/
inductive VolumeSource where
  | persistentVolumeClaim (claimName : String)
  | configMap (name : String)
deriving DecidableEq

/-- Volume: a named volume. -/
structure Volume where
  name : String
  source : VolumeSource
deriving DecidableEq

/-- PodSpec: the pod specification the workload generator emits. -/
structure PodSpec where
  containers : List Container
  volumes : List Volume
  securityContext : Option String
deriving DecidableEq

/-- PodTemplateSpec: labels, annotations and the pod spec. -/
structure PodTemplateSpec where
  labels : List (String × String)
  annotations : List (String × String)
  spec : PodSpec
deriving DecidableEq

/-- DeploymentStrategy: the update strategy type string
("Recreate" or "RollingUpdate"); Go calls this field Type. -/
structure DeploymentStrategy where
  strategyType : String
deriving DecidableEq

/-- DeploymentSpec: replicas, strategy, selector and pod template. -/
structure DeploymentSpec where
  replicas : Int
  strategy : DeploymentStrategy
  selectorMatchLabels : List (String × String)
  template : PodTemplateSpec
deriving DecidableEq

/-- DeploymentStatus: the replica counts reported by the platform. -/
structure DeploymentStatus where
  replicas : Int
  readyReplicas : Int
deriving DecidableEq

/-- Deployment: a named deployment with spec and status. -/
structure Deployment where
  name : String
  nspace : String
  spec : DeploymentSpec
  status : DeploymentStatus
deriving DecidableEq

/-- ConfigMap: a named map of text data. -/
structure ConfigMap where
  name : String
  nspace : String
  data : List (String × String)
deriving DecidableEq

/-- Secret: a named map of credential data (bytes modelled as strings). -/
structure Secret where
  name : String
  nspace : String
  secretType : String
  data : List (String × String)
deriving DecidableEq

/-- PersistentVolumeClaim: the fields createPVC sets. -/
structure PersistentVolumeClaim where
  name : String
  nspace : String
  accessModes : List String
  requestsStorage : String
  storageClassName : Option String
deriving DecidableEq

/-- ServicePort: a named service port with its target. -/
structure ServicePort where
  name : String
  port : Int
  targetPort : Int
deriving DecidableEq

/-- Service: the fields the service generator emits. -/
structure Service where
  name : String
  nspace : String
  annotations : List (String × String)
  selector : List (String × String)
  ports : List ServicePort
deriving DecidableEq

/-! ## Helpers -/

/-- joinStrings joins a string slice with commas (the Go loop). -/
def joinStrings (strs : List String) : String :=
  match strs with
  | [] => ""
  | s :: rest => rest.foldl (fun result x => result ++ "," ++ x) s

/-- fmtBool renders a Bool the way Go fmt's %t does. -/
def fmtBool (b : Bool) : String :=
  if b then "true" else "false"

/-- fmtInt renders an Int the way Go fmt's %d does. -/
def fmtInt (i : Int) : String :=
  toString i

/-- validatorEnabled is the guard `Spec.Validator != nil && Spec.Validator.Enabled`
used at createPodSpec and reconcileSecret. -/
def validatorEnabled (spec : AxelarNodeSpec) : Bool :=
  match spec.validator with
  | some v => v.enabled
  | none => false

/-! ## Desired-state generators -/

/-- generateConfigMapData renders app.toml, config.toml, chain-id and network
from the spec, substituting the same fields the Go templates do. -/
def generateConfigMapData (axelarNode : AxelarNode) : List (String × String) :=
  let chainId :=
    if axelarNode.spec.network = "mainnet" then "axelar-dojo-1"
    else "axelar-testnet-lisbon-3"
  [ ("app.toml",
      "\n# Axelar Node Configuration\nminimum-gas-prices = \"0.007uaxl\"\npruning = \"default\"\nhalt-height = 0\n\n[telemetry]\nenabled = "
      ++ fmtBool axelarNode.spec.monitoring.enabled
      ++ "\nprometheus-retention-time = 60\n\n[api]\nenable = "
      ++ fmtBool axelarNode.spec.networking.api.enabled
      ++ "\naddress = \"tcp://0.0.0.0:"
      ++ fmtInt axelarNode.spec.networking.api.port
      ++ "\"\n\n[grpc]\nenable = true\naddress = \"0.0.0.0:9090\"\n"),
    ("config.toml",
      "\n# Tendermint Configuration\nmoniker = \""
      ++ axelarNode.spec.moniker
      ++ "\"\nfast_sync = true\ndb_backend = \"goleveldb\"\nlog_level = \"info\"\nlog_format = \"json\"\n\n[rpc]\nladdr = \"tcp://0.0.0.0:"
      ++ fmtInt axelarNode.spec.networking.rpc.port
      ++ "\"\ncors_allowed_origins = []\nunsafe = false\n\n[p2p]\nladdr = \"tcp://0.0.0.0:"
      ++ fmtInt axelarNode.spec.networking.p2p.port
      ++ "\"\nexternal_address = \""
      ++ axelarNode.spec.networking.p2p.externalAddress
      ++ "\"\npersistent_peers = \""
      ++ joinStrings axelarNode.spec.networking.p2p.persistentPeers
      ++ "\"\nseeds = \""
      ++ joinStrings axelarNode.spec.networking.p2p.seeds
      ++ "\"\nmax_num_inbound_peers = 40\nmax_num_outbound_peers = 10\n\n[instrumentation]\nprometheus = "
      ++ fmtBool axelarNode.spec.monitoring.enabled
      ++ "\nprometheus_listen_addr = \":"
      ++ fmtInt axelarNode.spec.monitoring.prometheus.port
      ++ "\"\n"),
    ("chain-id", chainId),
    ("network", axelarNode.spec.network) ]

/-- createValidatorContainers creates the two validator-specific sidecar
containers (vald and tofnd). -/
def createValidatorContainers (axelarNode : AxelarNode) : List Container :=
  [ { name := "vald"
      image := axelarNode.spec.image.repository ++ ":" ++ axelarNode.spec.image.tag
      command := ["sh", "-c", "sleep 60 && exec vald-start"]
      env :=
        [ { name := "HOME", value := "/home/axelard" },
          { name := "KEYRING_PASSWORD",
            valueFrom := some { name := axelarNode.name ++ "-secrets", key := "keyring-password" } } ]
      volumeMounts :=
        [ { name := "data", mountPath := "/home/axelard/.axelar" },
          { name := "shared", mountPath := "/home/axelard/shared" } ] },
    { name := "tofnd"
      image := "axelarnet/tofnd:v0.10.1"
      command := ["tofnd"]
      args := ["-m", "/home/axelard/shared/tofnd.txt", "-d", "/home/axelard/.tofnd"]
      env :=
        [ { name := "TOFND_PASSWORD",
            valueFrom := some { name := axelarNode.name ++ "-secrets", key := "tofnd-password" } } ]
      ports := [ { name := "tofnd", containerPort := 50051 } ]
      volumeMounts :=
        [ { name := "shared", mountPath := "/home/axelard/shared" } ] } ]

/-- createPodSpec creates the pod specification: one primary axelar-node
container, plus the validator sidecars when the validator sub-spec is present
and enabled. -/
def createPodSpec (axelarNode : AxelarNode) : PodSpec :=
  let primary : Container :=
    { name := "axelar-node"
      image := axelarNode.spec.image.repository ++ ":" ++ axelarNode.spec.image.tag
      imagePullPolicy := axelarNode.spec.image.pullPolicy
      command := ["startNodeProc"]
      env :=
        [ { name := "HOME", value := "/home/axelard" },
          { name := "START_REST", value := "true" },
          { name := "NODE_MONIKER", value := axelarNode.spec.moniker },
          { name := "KEYRING_PASSWORD",
            valueFrom := some { name := axelarNode.name ++ "-secrets", key := "keyring-password" } } ]
      ports :=
        [ { name := "rpc", containerPort := axelarNode.spec.networking.rpc.port },
          { name := "p2p", containerPort := axelarNode.spec.networking.p2p.port },
          { name := "api", containerPort := axelarNode.spec.networking.api.port },
          { name := "prometheus", containerPort := axelarNode.spec.monitoring.prometheus.port } ]
      resources := axelarNode.spec.resources
      volumeMounts :=
        [ { name := "data", mountPath := "/home/axelard/.axelar" },
          { name := "shared", mountPath := "/home/axelard/shared" },
          { name := "config", mountPath := "/home/axelard/config" } ]
      livenessProbe := some
        { httpGet := { path := "/health", port := axelarNode.spec.monitoring.prometheus.port }
          initialDelaySeconds := 120
          periodSeconds := 30 }
      readinessProbe := some
        { httpGet := { path := "/health", port := axelarNode.spec.monitoring.prometheus.port }
          initialDelaySeconds := 60
          periodSeconds := 10 } }
  let containers :=
    if validatorEnabled axelarNode.spec
    then [primary] ++ createValidatorContainers axelarNode
    else [primary]
  { containers := containers
    volumes :=
      [ { name := "data",
          source := .persistentVolumeClaim (axelarNode.name ++ "-data") },
        { name := "shared",
          source := .persistentVolumeClaim (axelarNode.name ++ "-shared") },
        { name := "config",
          source := .configMap (axelarNode.name ++ "-config") } ]
    securityContext := axelarNode.spec.security.podSecurityContext }

/-- createDeployment creates the deployment object: one replica, Recreate
strategy, app label selector and the generated pod spec. -/
def createDeployment (axelarNode : AxelarNode) : Deployment :=
  { name := axelarNode.name
    nspace := axelarNode.nspace
    spec :=
      { replicas := 1
        strategy := { strategyType := "Recreate" }
        selectorMatchLabels := [("app", axelarNode.name)]
        template :=
          { labels := [("app", axelarNode.name)]
            annotations :=
              [ ("prometheus.io/scrape", "true"),
                ("prometheus.io/port", fmtInt axelarNode.spec.monitoring.prometheus.port),
                ("prometheus.io/path", axelarNode.spec.monitoring.prometheus.path) ]
            spec := createPodSpec axelarNode } }
    status := { replicas := 0, readyReplicas := 0 } }

/-! ## Cluster state and the API-call trace

The controller's Kubernetes client is modelled as an explicit store of the
objects the reconciler touches, each association list keyed by object name
(everything lives in the resource's namespace).  Owner references set by
`SetControllerReference` only matter to the platform's garbage collector and
are not modelled.  Every mutating API call (`Create`, `Update`,
`Status().Update`) is recorded as a `WriteOp`.  The one read that the claims
exercise as fallible — the deployment `Get` inside `updateStatus`, i.e. the
status poll — takes an explicit `pollFails` flag modelling a transient API
read failure; all other reads answer from the store (found, or not-found when
absent). -/

/-- WriteOp: one mutating API call issued by the reconciler. -/
inductive WriteOp where
  | createConfigMap
  | updateConfigMap
  | createSecret
  | createPVC (name : String)
  | createService
  | updateService
  | createDeployment
  | updateDeployment
  | updateNode
  | updateNodeStatus
deriving DecidableEq

/-- RState: the store of cluster objects the reconciler reads and writes. -/
structure RState where
  node : Option AxelarNode
  configMaps : List (String × ConfigMap)
  secrets : List (String × Secret)
  pvcs : List (String × PersistentVolumeClaim)
  services : List (String × Service)
  deployments : List (String × Deployment)
deriving DecidableEq

/-- lookupBy finds the object stored under a name (client Get). -/
def lookupBy {α : Type} (k : String) : List (String × α) → Option α
  | [] => none
  | (k', v) :: rest => if k' = k then some v else lookupBy k rest

/-- insertBy stores an object under a name, replacing any existing entry
(client Create when absent, Update when present). -/
def insertBy {α : Type} (k : String) (v : α) : List (String × α) → List (String × α)
  | [] => [(k, v)]
  | (k', v') :: rest => if k' = k then (k, v) :: rest else (k', v') :: insertBy k v rest

/-- StepRes: success or error of one reconciliation step (Go's error value,
collapsed to its nil-ness). -/
inductive StepRes where
  | ok
  | err
deriving DecidableEq

/-- CtrlResult: the ctrl.Result value a reconciliation returns — either the
empty result or a requeue-after interval in minutes. -/
inductive CtrlResult where
  | empty
  | requeueAfter (minutes : Nat)
deriving DecidableEq

/-- ReconcileResult: the (ctrl.Result, error) pair returned by Reconcile,
collapsed to the cases the code distinguishes. -/
inductive ReconcileResult where
  | ok (result : CtrlResult)
  | err
deriving DecidableEq

/-- finalizerName is the finalizer marker the reconciler manages. -/
def finalizerName : String :=
  "axelarnode.blockchain.axelar.network/finalizer"

/-! ## Reconciler steps (axelarnetwork_controller.go, AxelarNodeReconciler) -/

/-- generateConfigMap is the config-map object reconcileConfigMap builds
before applying it. -/
def generateConfigMap (axelarNode : AxelarNode) : ConfigMap :=
  { name := axelarNode.name ++ "-config"
    nspace := axelarNode.nspace
    data := generateConfigMapData axelarNode }

/-- reconcileConfigMap creates the config map when absent, otherwise replaces
its data and updates it unconditionally. -/
def reconcileConfigMap (st : RState) (axelarNode : AxelarNode) :
    RState × List WriteOp × StepRes :=
  let configMap := generateConfigMap axelarNode
  match lookupBy configMap.name st.configMaps with
  | none =>
      ({ st with configMaps := insertBy configMap.name configMap st.configMaps },
       [.createConfigMap], .ok)
  | some found =>
      ({ st with configMaps :=
          insertBy configMap.name { found with data := configMap.data } st.configMaps },
       [.updateConfigMap], .ok)

/-- generateSecret is the credentials object reconcileSecret builds before
applying it: a keyring password, plus the tofnd password when the validator
sub-spec is present and enabled. -/
def generateSecret (axelarNode : AxelarNode) : Secret :=
  let baseData := [("keyring-password", "default-password-change-me")]
  let data :=
    if validatorEnabled axelarNode.spec
    then baseData ++ [("tofnd-password", "default-tofnd-password-change-me")]
    else baseData
  { name := axelarNode.name ++ "-secrets"
    nspace := axelarNode.nspace
    secretType := "Opaque"
    data := data }

/-- reconcileSecret creates the credentials secret when absent; when it is
already present the function returns without writing. -/
def reconcileSecret (st : RState) (axelarNode : AxelarNode) :
    RState × List WriteOp × StepRes :=
  let secret := generateSecret axelarNode
  match lookupBy secret.name st.secrets with
  | none =>
      ({ st with secrets := insertBy secret.name secret st.secrets },
       [.createSecret], .ok)
  | some _ => (st, [], .ok)

/-- createPVC builds a claim named `<name>-<suffix>` with the given size; the
storage class is set only when the spec names one. -/
def createPVC (axelarNode : AxelarNode) (suffix size : String) :
    PersistentVolumeClaim :=
  { name := axelarNode.name ++ "-" ++ suffix
    nspace := axelarNode.nspace
    accessModes := ["ReadWriteOnce"]
    requestsStorage := size
    storageClassName :=
      if axelarNode.spec.storage.storageClass = "" then none
      else some axelarNode.spec.storage.storageClass }

/-- createOrUpdatePVC creates the claim when absent and otherwise leaves the
stored claim untouched. -/
def createOrUpdatePVC (st : RState) (pvc : PersistentVolumeClaim) :
    RState × List WriteOp × StepRes :=
  match lookupBy pvc.name st.pvcs with
  | none =>
      ({ st with pvcs := insertBy pvc.name pvc st.pvcs },
       [.createPVC pvc.name], .ok)
  | some _ => (st, [], .ok)

/-- reconcilePVC applies the primary data claim (size from the spec) and then
the fixed 10Gi shared claim, short-circuiting on error. -/
def reconcilePVC (st : RState) (axelarNode : AxelarNode) :
    RState × List WriteOp × StepRes :=
  match createOrUpdatePVC st (createPVC axelarNode "data" axelarNode.spec.storage.size) with
  | (st1, t1, .ok) =>
      match createOrUpdatePVC st1 (createPVC axelarNode "shared" "10Gi") with
      | (st2, t2, res) => (st2, t1 ++ t2, res)
  | (st1, t1, .err) => (st1, t1, .err)

/-- generateService is the service object reconcileService builds before
applying it. -/
def generateService (axelarNode : AxelarNode) : Service :=
  { name := axelarNode.name ++ "-service"
    nspace := axelarNode.nspace
    annotations :=
      [ ("prometheus.io/scrape", "true"),
        ("prometheus.io/port", fmtInt axelarNode.spec.monitoring.prometheus.port),
        ("prometheus.io/path", axelarNode.spec.monitoring.prometheus.path) ]
    selector := [("app", axelarNode.name)]
    ports :=
      [ { name := "rpc",
          port := axelarNode.spec.networking.rpc.port,
          targetPort := axelarNode.spec.networking.rpc.port },
        { name := "p2p",
          port := axelarNode.spec.networking.p2p.port,
          targetPort := axelarNode.spec.networking.p2p.port },
        { name := "api",
          port := axelarNode.spec.networking.api.port,
          targetPort := axelarNode.spec.networking.api.port },
        { name := "prometheus",
          port := axelarNode.spec.monitoring.prometheus.port,
          targetPort := axelarNode.spec.monitoring.prometheus.port } ] }

/-- reconcileService creates the service when absent, otherwise replaces its
ports and annotations and updates it unconditionally. -/
def reconcileService (st : RState) (axelarNode : AxelarNode) :
    RState × List WriteOp × StepRes :=
  let service := generateService axelarNode
  match lookupBy service.name st.services with
  | none =>
      ({ st with services := insertBy service.name service st.services },
       [.createService], .ok)
  | some found =>
      let found' := { found with ports := service.ports, annotations := service.annotations }
      ({ st with services := insertBy service.name found' st.services },
       [.updateService], .ok)

/-- deploymentEqual is the simplified comparison: only the first container's
image is compared.  (Go indexes Containers[0]; generated deployments always
have a first container, so the total head? rendering agrees wherever the Go
code is defined.) -/
def deploymentEqual (a b : Deployment) : Bool :=
  (a.spec.template.spec.containers.head?.map Container.image)
    == (b.spec.template.spec.containers.head?.map Container.image)

/-- reconcileDeployment creates the deployment when absent; when present it
updates the spec only if deploymentEqual reports a difference. -/
def reconcileDeployment (st : RState) (axelarNode : AxelarNode) :
    RState × List WriteOp × StepRes :=
  let deployment := createDeployment axelarNode
  match lookupBy deployment.name st.deployments with
  | none =>
      ({ st with deployments := insertBy deployment.name deployment st.deployments },
       [.createDeployment], .ok)
  | some found =>
      if deploymentEqual found deployment then (st, [], .ok)
      else
        ({ st with deployments :=
            insertBy deployment.name { found with spec := deployment.spec } st.deployments },
         [.updateDeployment], .ok)

/-- projectStatus is the pure part of updateStatus: the phase derived from
the deployment's replica counts, plus the placeholder sync and network info
(the TODO block in the source); validatorInfo is left as it was. -/
def projectStatus (axelarNode : AxelarNode) (deployment : Deployment) (now : Nat) :
    AxelarNodeStatus :=
  let phase :=
    if deployment.status.readyReplicas > 0 then "Running"
    else if deployment.status.replicas > 0 then "Syncing"
    else "Pending"
  { phase := phase
    syncInfo :=
      { currentHeight := 12345
        latestHeight := 12345
        catchingUp := false
        lastSyncTime := some now }
    networkInfo :=
      { peers := 10
        nodeID := "mock-node-id"
        network := axelarNode.spec.network }
    validatorInfo := axelarNode.status.validatorInfo }

/-- updateStatus reads the deployment (a poll that can fail transiently or
with not-found; both are a non-nil error returned to the caller) and on
success writes the projected status through the status sub-resource. -/
def updateStatus (st : RState) (axelarNode : AxelarNode) (pollFails : Bool) (now : Nat) :
    RState × List WriteOp × StepRes :=
  if pollFails then (st, [], .err)
  else
    match lookupBy axelarNode.name st.deployments with
    | none => (st, [], .err)
    | some deployment =>
        let node' := { axelarNode with status := projectStatus axelarNode deployment now }
        ({ st with node := some node' }, [.updateNodeStatus], .ok)

/-- handleDeletion removes the finalizer and updates the resource. -/
def handleDeletion (st : RState) (axelarNode : AxelarNode) :
    RState × List WriteOp × StepRes :=
  let node' :=
    { axelarNode with finalizers := axelarNode.finalizers.filter (fun f => f ≠ finalizerName) }
  ({ st with node := some node' }, [.updateNode], .ok)

/-- andThen chains reconciliation steps, short-circuiting on the first error
(the sequence of early returns in Reconcile). -/
def andThen (r : RState × List WriteOp × StepRes)
    (f : RState → RState × List WriteOp × StepRes) :
    RState × List WriteOp × StepRes :=
  match r with
  | (st, t, .ok) =>
      match f st with
      | (st', t', res) => (st', t ++ t', res)
  | (st, t, .err) => (st, t, .err)

/-- reconcileAll is the fixed convergence sequence of Reconcile's main path:
config map, secret, storage claims, service, deployment, then the status
refresh, short-circuiting on the first error. -/
def reconcileAll (st : RState) (axelarNode : AxelarNode) (pollFails : Bool) (now : Nat) :
    RState × List WriteOp × StepRes :=
  let r := reconcileConfigMap st axelarNode
  let r := andThen r (fun s => reconcileSecret s axelarNode)
  let r := andThen r (fun s => reconcilePVC s axelarNode)
  let r := andThen r (fun s => reconcileService s axelarNode)
  let r := andThen r (fun s => reconcileDeployment s axelarNode)
  andThen r (fun s => updateStatus s axelarNode pollFails now)

/-- ReconOut: the state, API-call trace and returned result of one
reconciliation pass. -/
structure ReconOut where
  st : RState
  trace : List WriteOp
  res : ReconcileResult
deriving DecidableEq

/-- Reconcile is one pass of the control loop: fetch the resource (absent is
a no-op success), branch to deletion handling, attach the missing finalizer
and return, initialize an empty phase, then drive the dependent objects in
the fixed order and finish with the status refresh and a 5-minute requeue. -/
def Reconcile (st : RState) (pollFails : Bool) (now : Nat) : ReconOut :=
  match st.node with
  | none => { st := st, trace := [], res := .ok .empty }
  | some axelarNode =>
    if axelarNode.deletionTimestamp.isSome then
      match handleDeletion st axelarNode with
      | (st1, t1, .ok) => { st := st1, trace := t1, res := .ok .empty }
      | (st1, t1, .err) => { st := st1, trace := t1, res := .err }
    else if ! axelarNode.finalizers.contains finalizerName then
      let node' := { axelarNode with finalizers := axelarNode.finalizers ++ [finalizerName] }
      { st := { st with node := some node' }, trace := [.updateNode], res := .ok .empty }
    else
      let (st0, t0, node0) :=
        if axelarNode.status.phase = "" then
          let node' :=
            { axelarNode with status := { axelarNode.status with phase := "Initializing" } }
          ({ st with node := some node' }, [WriteOp.updateNodeStatus], node')
        else (st, [], axelarNode)
      match reconcileAll st0 node0 pollFails now with
      | (st', t, .ok) => { st := st', trace := t0 ++ t, res := .ok (.requeueAfter 5) }
      | (st', t, .err) => { st := st', trace := t0 ++ t, res := .err }

/-- converged holds when every dependent object of the resource already
exists in the store and equals the generated target byte for byte. -/
def converged (st : RState) (axelarNode : AxelarNode) : Bool :=
  (lookupBy (generateConfigMap axelarNode).name st.configMaps
      == some (generateConfigMap axelarNode))
  && (lookupBy (generateSecret axelarNode).name st.secrets == some (generateSecret axelarNode))
  && (lookupBy (createPVC axelarNode "data" axelarNode.spec.storage.size).name st.pvcs
        == some (createPVC axelarNode "data" axelarNode.spec.storage.size))
  && (lookupBy (createPVC axelarNode "shared" "10Gi").name st.pvcs
        == some (createPVC axelarNode "shared" "10Gi"))
  && (lookupBy (generateService axelarNode).name st.services == some (generateService axelarNode))
  && (lookupBy (createDeployment axelarNode).name st.deployments
        == some (createDeployment axelarNode))

/-! ## Concrete example resources (used by counterexamples and witnesses) -/

/-- exSpecBase: an observer spec populated with the schema's default values. -/
def exSpecBase : AxelarNodeSpec :=
  { nodeType := "observer"
    network := "testnet"
    moniker := "axelar-k8s-node"
    image := { repository := "axelarnet/axelar-core", tag := "v0.35.5", pullPolicy := "IfNotPresent" }
    resources := ""
    storage :=
      { size := "500Gi", storageClass := "standard"
        backup := { enabled := false, schedule := "0 2 * * *", retention := "7d" } }
    validator := none
    networking :=
      { p2p := { port := 26656, externalAddress := "", persistentPeers := [], seeds := [] }
        rpc := { enabled := true, port := 26657, cors := false }
        api := { enabled := true, port := 1317 } }
    monitoring :=
      { enabled := true
        prometheus := { port := 26660, path := "/metrics" }
        alerts := { enabled := true, slack := { webhook := "", channel := "" } } }
    upgrade :=
      { strategy := "rolling", autoUpgrade := false, preUpgradeBackup := true, rollbackOnFailure := true }
    security :=
      { podSecurityContext := none, networkPolicies := true
        secretManagement := { provider := "kubernetes", autoRotation := false } } }

/-- exValidatorSub: an enabled validator sub-spec with default values. -/
def exValidatorSub : ValidatorSpec :=
  { enabled := true
    keyManagement := { autoRotation := false, rotationSchedule := "0 0 1 * *", backupKeys := true }
    slashing := { protection := true, maxMissedBlocks := 50 } }

/-- emptyStatus: the zero-valued status a fresh resource carries. -/
def emptyStatus : AxelarNodeStatus :=
  { phase := ""
    syncInfo := { currentHeight := 0, latestHeight := 0, catchingUp := false, lastSyncTime := none }
    networkInfo := { peers := 0, nodeID := "", network := "" }
    validatorInfo := none }

/-- exObserver: a fresh observer resource. -/
def exObserver : AxelarNode :=
  { name := "node1"
    nspace := "default"
    finalizers := []
    deletionTimestamp := none
    spec := exSpecBase
    status := emptyStatus }

/-- exValidatorNode: a fresh validator resource with the validator sub-spec
enabled. -/
def exValidatorNode : AxelarNode :=
  { exObserver with
      name := "val1"
      spec := { exSpecBase with nodeType := "validator", validator := some exValidatorSub } }

/-- exObserverWithValidator: a resource whose kind is observer but whose
validator sub-spec is present and enabled (nothing in the schema forbids
this combination). -/
def exObserverWithValidator : AxelarNode :=
  { exObserver with
      name := "obsval"
      spec := { exSpecBase with nodeType := "observer", validator := some exValidatorSub } }

/-- exState0: a cluster holding only the fresh observer resource. -/
def exState0 : RState :=
  { node := some exObserver
    configMaps := []
    secrets := []
    pvcs := []
    services := []
    deployments := [] }

/-- exState1: after the first pass (finalizer attached, nothing created). -/
def exState1 : RState :=
  (Reconcile exState0 false 0).st

/-- exState2: after the second pass (phase initialized, all dependent
objects created, status refreshed). -/
def exState2 : RState :=
  (Reconcile exState1 false 1).st

/-- exNode2: the resource as stored in exState2. -/
def exNode2 : AxelarNode :=
  { exObserver with
      finalizers := [finalizerName]
      status :=
        { phase := "Pending"
          syncInfo :=
            { currentHeight := 12345, latestHeight := 12345, catchingUp := false
              lastSyncTime := some 1 }
          networkInfo := { peers := 10, nodeID := "mock-node-id", network := "testnet" }
          validatorInfo := none } }

/-- exNode3: the resource as stored after a third pass at clock 2 (only the
sync timestamp moves). -/
def exNode3 : AxelarNode :=
  { exNode2 with
      status :=
        { exNode2.status with
            syncInfo := { exNode2.status.syncInfo with lastSyncTime := some 2 } } }

/-- exValState: a cluster holding the fresh validator resource together with
its generated deployment (so a status refresh can succeed). -/
def exValState : RState :=
  { node := some exValidatorNode
    configMaps := []
    secrets := []
    pvcs := []
    services := []
    deployments := [(exValidatorNode.name, createDeployment exValidatorNode)] }

/-- exDeployment10: the observer's deployment reporting replicas=1 and
readyReplicas=0. -/
def exDeployment10 : Deployment :=
  { createDeployment exObserver with status := { replicas := 1, readyReplicas := 0 } }

/-- exStateDep10: a cluster holding the fresh observer resource and its
deployment reporting (1, 0). -/
def exStateDep10 : RState :=
  { node := some exObserver
    configMaps := []
    secrets := []
    pvcs := []
    services := []
    deployments := [(exObserver.name, exDeployment10)] }

/-- exCustomSecret: a pre-existing credentials object whose content differs
from anything the generator would emit (say, rotated by an operator). -/
def exCustomSecret : Secret :=
  { name := "node1-secrets"
    nspace := "default"
    secretType := "Opaque"
    data := [("keyring-password", "operator-rotated-password")] }

/-- exStateWithSecret: the observer resource mid-lifecycle (finalizer
attached, phase set) together with its deployment and the custom
pre-existing credentials object. -/
def exStateWithSecret : RState :=
  { node := some exNode2
    configMaps := []
    secrets := [("node1-secrets", exCustomSecret)]
    pvcs := []
    services := []
    deployments := [("node1", createDeployment exObserver)] }

/-! ## Frame lemmas for the reconciliation steps -/

/-- None of the dependent-object steps touches the stored resource, and the
config-map step also leaves the secret store alone. -/
theorem reconcileConfigMap_preserves (st : RState) (n : AxelarNode) :
    (reconcileConfigMap st n).1.node = st.node
    ∧ (reconcileConfigMap st n).1.secrets = st.secrets := by
  rcases h : lookupBy (generateConfigMap n).name st.configMaps with _ | found <;>
    simp [reconcileConfigMap, h]

/-- The secret step never touches the stored resource. -/
theorem reconcileSecret_preserves_node (st : RState) (n : AxelarNode) :
    (reconcileSecret st n).1.node = st.node := by
  rcases h : lookupBy (generateSecret n).name st.secrets with _ | found <;>
    simp [reconcileSecret, h]

/-- When the credentials secret is already stored, the secret step returns
without any write at all. -/
theorem reconcileSecret_present (st : RState) (n : AxelarNode) (s : Secret)
    (hs : lookupBy (generateSecret n).name st.secrets = some s) :
    reconcileSecret st n = (st, [], .ok) := by
  simp [reconcileSecret, hs]

/-- The claim step touches neither the stored resource nor the secrets. -/
theorem createOrUpdatePVC_preserves (st : RState) (pvc : PersistentVolumeClaim) :
    (createOrUpdatePVC st pvc).1.node = st.node
    ∧ (createOrUpdatePVC st pvc).1.secrets = st.secrets := by
  rcases h : lookupBy pvc.name st.pvcs with _ | found <;>
    simp [createOrUpdatePVC, h]

/-- The storage step touches neither the stored resource nor the secrets. -/
theorem reconcilePVC_preserves (st : RState) (n : AxelarNode) :
    (reconcilePVC st n).1.node = st.node
    ∧ (reconcilePVC st n).1.secrets = st.secrets := by
  unfold reconcilePVC
  rcases h1 : createOrUpdatePVC st (createPVC n "data" n.spec.storage.size) with ⟨s1, t1, r1⟩
  have hp1 := createOrUpdatePVC_preserves st (createPVC n "data" n.spec.storage.size)
  rw [h1] at hp1
  cases r1
  · rcases h2 : createOrUpdatePVC s1 (createPVC n "shared" "10Gi") with ⟨s2, t2, r2⟩
    have hp2 := createOrUpdatePVC_preserves s1 (createPVC n "shared" "10Gi")
    rw [h2] at hp2
    simp at hp1 hp2
    simp [h2, hp1.1, hp1.2, hp2.1, hp2.2]
  · simp at hp1
    simp [hp1.1, hp1.2]

/-- The service step touches neither the stored resource nor the secrets. -/
theorem reconcileService_preserves (st : RState) (n : AxelarNode) :
    (reconcileService st n).1.node = st.node
    ∧ (reconcileService st n).1.secrets = st.secrets := by
  rcases h : lookupBy (generateService n).name st.services with _ | found <;>
    simp [reconcileService, h]

/-- The deployment step touches neither the stored resource nor the secrets. -/
theorem reconcileDeployment_preserves (st : RState) (n : AxelarNode) :
    (reconcileDeployment st n).1.node = st.node
    ∧ (reconcileDeployment st n).1.secrets = st.secrets := by
  rcases h : lookupBy (createDeployment n).name st.deployments with _ | found
  · simp [reconcileDeployment, h]
  · by_cases he : deploymentEqual found (createDeployment n) <;>
      simp [reconcileDeployment, h, he]

/-- The status refresh never touches the secret store. -/
theorem updateStatus_preserves_secrets (st : RState) (n : AxelarNode) (pf : Bool) (now : Nat) :
    (updateStatus st n pf now).1.secrets = st.secrets := by
  unfold updateStatus
  by_cases hp : pf
  · simp [hp]
  · rcases h : lookupBy n.name st.deployments with _ | dep <;> simp [hp, h]

/-- A failing poll returns an error without touching the store at all. -/
theorem updateStatus_fail (st : RState) (n : AxelarNode) (now : Nat) :
    updateStatus st n true now = (st, [], .err) := rfl

/-- A status refresh either leaves the store untouched (failure) or stores
the resource with the projected status (success). -/
theorem updateStatus_node_cases (st : RState) (n : AxelarNode) (pf : Bool) (now : Nat) :
    (updateStatus st n pf now).1.node = st.node
    ∨ ∃ dep, (updateStatus st n pf now).1.node
        = some { n with status := projectStatus n dep now } := by
  unfold updateStatus
  by_cases hp : pf
  · exact .inl (by simp [hp])
  · rcases h : lookupBy n.name st.deployments with _ | dep
    · exact .inl (by simp [hp, h])
    · exact .inr ⟨dep, by simp [hp, h]⟩

/-! ## Composition lemmas for the step chain -/

/-- A projection of the state that every later step preserves is preserved
by the chained step. -/
theorem andThen_proj {α : Type} (g : RState → α) (r : RState × List WriteOp × StepRes)
    (f : RState → RState × List WriteOp × StepRes) (hf : ∀ s, g (f s).1 = g s) :
    g (andThen r f).1 = g r.1 := by
  rcases r with ⟨s, t, res⟩
  cases res
  · rcases hfs : f s with ⟨s', t', res'⟩
    have h := hf s
    rw [hfs] at h
    simpa [andThen, hfs] using h
  · simp [andThen]

/-- Chaining a step that always errors yields an error. -/
theorem andThen_res_err (r : RState × List WriteOp × StepRes)
    (f : RState → RState × List WriteOp × StepRes) (hf : ∀ s, (f s).2.2 = .err) :
    (andThen r f).2.2 = .err := by
  rcases r with ⟨s, t, res⟩
  cases res
  · rcases hfs : f s with ⟨s', t', res'⟩
    have h := hf s
    rw [hfs] at h
    simp at h
    simp [andThen, hfs, h]
  · simp [andThen]

/-- The convergence chain either leaves the stored resource untouched or
stores it with the projected status. -/
theorem reconcileAll_node_cases (st : RState) (n : AxelarNode) (pf : Bool) (now : Nat) :
    (reconcileAll st n pf now).1.node = st.node
    ∨ ∃ dep, (reconcileAll st n pf now).1.node
        = some { n with status := projectStatus n dep now } := by
  have key : ∀ (r : RState × List WriteOp × StepRes), r.1.node = st.node →
      (andThen r (fun s => updateStatus s n pf now)).1.node = st.node
      ∨ ∃ dep, (andThen r (fun s => updateStatus s n pf now)).1.node
          = some { n with status := projectStatus n dep now } := by
    intro r hr
    rcases r with ⟨s5, t5, res5⟩
    simp at hr
    cases res5
    · rcases updateStatus_node_cases s5 n pf now with hc | ⟨dep, hc⟩
      · left
        rcases hu : updateStatus s5 n pf now with ⟨su, tu, ru⟩
        rw [hu] at hc
        simp at hc
        simp [andThen, hu, hc, hr]
      · right
        refine ⟨dep, ?_⟩
        rcases hu : updateStatus s5 n pf now with ⟨su, tu, ru⟩
        rw [hu] at hc
        simp at hc
        simp [andThen, hu, hc]
    · left
      simp [andThen, hr]
  have hnode5 : (andThen (andThen (andThen (andThen (reconcileConfigMap st n)
      (fun s => reconcileSecret s n)) (fun s => reconcilePVC s n))
      (fun s => reconcileService s n)) (fun s => reconcileDeployment s n)).1.node
        = st.node := by
    rw [andThen_proj RState.node _ _ (fun s => (reconcileDeployment_preserves s n).1)]
    rw [andThen_proj RState.node _ _ (fun s => (reconcileService_preserves s n).1)]
    rw [andThen_proj RState.node _ _ (fun s => (reconcilePVC_preserves s n).1)]
    rw [andThen_proj RState.node _ _ (fun s => reconcileSecret_preserves_node s n)]
    exact (reconcileConfigMap_preserves st n).1
  exact key _ hnode5

/-- When the credentials secret is already stored, the whole convergence
chain leaves the secret store unchanged. -/
theorem reconcileAll_secrets (st : RState) (n : AxelarNode) (pf : Bool) (now : Nat)
    (s : Secret) (hs : lookupBy (generateSecret n).name st.secrets = some s) :
    (reconcileAll st n pf now).1.secrets = st.secrets := by
  have hrest : ∀ (r : RState × List WriteOp × StepRes),
      r.1.secrets = st.secrets →
      (andThen (andThen (andThen (andThen r (fun s => reconcilePVC s n))
        (fun s => reconcileService s n)) (fun s => reconcileDeployment s n))
        (fun s => updateStatus s n pf now)).1.secrets = st.secrets := by
    intro r hr
    rw [andThen_proj RState.secrets _ _ (fun s => updateStatus_preserves_secrets s n pf now)]
    rw [andThen_proj RState.secrets _ _ (fun s => (reconcileDeployment_preserves s n).2)]
    rw [andThen_proj RState.secrets _ _ (fun s => (reconcileService_preserves s n).2)]
    rw [andThen_proj RState.secrets _ _ (fun s => (reconcilePVC_preserves s n).2)]
    exact hr
  have goal_eq : reconcileAll st n pf now
      = andThen (andThen (andThen (andThen (andThen (reconcileConfigMap st n)
          (fun s => reconcileSecret s n)) (fun s => reconcilePVC s n))
          (fun s => reconcileService s n)) (fun s => reconcileDeployment s n))
          (fun s => updateStatus s n pf now) := rfl
  rw [goal_eq]
  rcases h1 : reconcileConfigMap st n with ⟨s1, t1, r1⟩
  have hp1 := reconcileConfigMap_preserves st n
  rw [h1] at hp1
  simp at hp1
  have hs1 : lookupBy (generateSecret n).name s1.secrets = some s := by
    rw [hp1.2]; exact hs
  have hsec : reconcileSecret s1 n = (s1, [], .ok) := reconcileSecret_present s1 n s hs1
  cases r1
  · have h2 : andThen (s1, t1, StepRes.ok) (fun s => reconcileSecret s n) = (s1, t1, .ok) := by
      simp [andThen, hsec]
    rw [h2]
    exact hrest _ hp1.2
  · have h2 : andThen (s1, t1, StepRes.err) (fun s => reconcileSecret s n) = (s1, t1, .err) := by
      simp [andThen]
    rw [h2]
    exact hrest _ hp1.2

/-- deploymentEqual is reflexive. -/
theorem deploymentEqual_self (d : Deployment) : deploymentEqual d d = true := by
  simp [deploymentEqual]

/-- When the status poll fails, the convergence chain errors and leaves the
stored resource untouched. -/
theorem reconcileAll_pollFails (st : RState) (n : AxelarNode) (now : Nat) :
    (reconcileAll st n true now).1.node = st.node
    ∧ (reconcileAll st n true now).2.2 = .err := by
  have goal_eq : reconcileAll st n true now
      = andThen (andThen (andThen (andThen (andThen (reconcileConfigMap st n)
          (fun s => reconcileSecret s n)) (fun s => reconcilePVC s n))
          (fun s => reconcileService s n)) (fun s => reconcileDeployment s n))
          (fun s => updateStatus s n true now) := rfl
  constructor
  · rw [goal_eq]
    rw [andThen_proj RState.node _ _ (fun s => by rw [updateStatus_fail])]
    rw [andThen_proj RState.node _ _ (fun s => (reconcileDeployment_preserves s n).1)]
    rw [andThen_proj RState.node _ _ (fun s => (reconcileService_preserves s n).1)]
    rw [andThen_proj RState.node _ _ (fun s => (reconcilePVC_preserves s n).1)]
    rw [andThen_proj RState.node _ _ (fun s => reconcileSecret_preserves_node s n)]
    exact (reconcileConfigMap_preserves st n).1
  · rw [goal_eq]
    exact andThen_res_err _ _ (fun s => by rw [updateStatus_fail])

/-- Reconcile's main path (resource present, not deleting, finalizer present,
phase already set) is exactly the convergence chain followed by the requeue
or the propagated error. -/
theorem Reconcile_steady (st : RState) (n : AxelarNode) (pf : Bool) (now : Nat)
    (hnode : st.node = some n) (hdel : n.deletionTimestamp = none)
    (hfin : n.finalizers.contains finalizerName = true)
    (hphase : ¬ n.status.phase = "") :
    Reconcile st pf now =
      (match reconcileAll st n pf now with
       | (st', t, .ok) => { st := st', trace := t, res := .ok (.requeueAfter 5) }
       | (st', t, .err) => { st := st', trace := t, res := .err }) := by
  have hmem : finalizerName ∈ n.finalizers := by simpa using hfin
  rcases hr : reconcileAll st n pf now with ⟨st', t, res⟩
  cases res <;> simp [Reconcile, hnode, hdel, hfin, hphase, hr, hmem]

/-! ## Claims -/

/-- Claim C1, counterexample: the container count is keyed on
validator.enabled alone, never on kind, so a spec with kind observer and an
enabled validator sub-spec yields 3 containers, not 1. -/
theorem C1_observer_with_validator_counterexample :
    exObserverWithValidator.spec.nodeType = "observer"
    ∧ (createPodSpec exObserverWithValidator).containers.length = 3
    ∧ ¬ (createPodSpec exObserverWithValidator).containers.length = 1 := by
  refine ⟨rfl, ?_, ?_⟩ <;> decide

/-- Claim C1, amended: the generated workload pod has exactly 3 containers
when the validator sub-spec is present and enabled (whatever the kind, so in
particular for kind validator), and exactly 1 container otherwise (in
particular for kind observer with no enabled validator sub-spec). -/
theorem C1_container_count_amended (axelarNode : AxelarNode) :
    (createPodSpec axelarNode).containers.length
      = if validatorEnabled axelarNode.spec then 3 else 1 := by
  cases h : validatorEnabled axelarNode.spec <;>
    simp [createPodSpec, createValidatorContainers, h]

/-- Claim C2: for every spec, regardless of upgrade.strategy, the generated
deployment has exactly one replica and the Recreate (non-rolling) update
strategy. -/
theorem C2_single_replica_recreate (axelarNode : AxelarNode) :
    (createDeployment axelarNode).spec.replicas = 1
    ∧ (createDeployment axelarNode).spec.strategy.strategyType = "Recreate"
    ∧ ¬ (createDeployment axelarNode).spec.strategy.strategyType = "RollingUpdate" := by
  refine ⟨rfl, rfl, ?_⟩
  show ¬ ("Recreate" = "RollingUpdate")
  decide

/-- Claim C7: the phase stored by a successful status refresh is derived
solely from the deployment's replica counts — Running when readyReplicas>0,
Syncing when replicas>0 with readyReplicas=0, Pending when both are 0; in
particular a deployment reporting (1,0) yields Syncing. -/
theorem C7_phase_from_replica_counts (st : RState) (axelarNode : AxelarNode)
    (deployment : Deployment) (now : Nat)
    (hdep : lookupBy axelarNode.name st.deployments = some deployment) :
    (updateStatus st axelarNode false now).1.node
      = some { axelarNode with status := projectStatus axelarNode deployment now }
    ∧ (deployment.status.readyReplicas > 0 →
        (projectStatus axelarNode deployment now).phase = "Running")
    ∧ (deployment.status.replicas > 0 ∧ deployment.status.readyReplicas ≤ 0 →
        (projectStatus axelarNode deployment now).phase = "Syncing")
    ∧ (deployment.status.replicas ≤ 0 ∧ deployment.status.readyReplicas ≤ 0 →
        (projectStatus axelarNode deployment now).phase = "Pending") := by
  refine ⟨by simp [updateStatus, hdep], ?_, ?_, ?_⟩
  · intro h
    simp only [projectStatus]
    rw [if_pos h]
  · rintro ⟨h1, h2⟩
    simp only [projectStatus]
    rw [if_neg (by omega), if_pos h1]
  · rintro ⟨h1, h2⟩
    simp only [projectStatus]
    rw [if_neg (by omega), if_neg (by omega)]

/-- Claim C7, witness: a freshly created observer whose deployment reports
replicas=1, readyReplicas=0 is stored with phase Syncing. -/
theorem C7_phase_from_replica_counts_witness :
    (updateStatus exStateDep10 exObserver false 0).1.node
      = some { exObserver with status := projectStatus exObserver exDeployment10 0 }
    ∧ (projectStatus exObserver exDeployment10 0).phase = "Syncing" := by
  have h := C7_phase_from_replica_counts exStateDep10 exObserver exDeployment10 0 rfl
  exact ⟨h.1, h.2.2.1 ⟨by decide, by decide⟩⟩

/-- Claim C9: a successful status refresh stores the projected status (whose
currentHeight is the fixed 12345), and a subsequent failing poll returns an
error leaving the whole store — hence syncInfo and networkInfo — exactly as
it was. -/
theorem C9_poll_failure_preserves_sync_info (st : RState) (axelarNode : AxelarNode)
    (deployment : Deployment) (now now2 : Nat)
    (hdep : lookupBy axelarNode.name st.deployments = some deployment) :
    (updateStatus st axelarNode false now).1.node
      = some { axelarNode with status := projectStatus axelarNode deployment now }
    ∧ (projectStatus axelarNode deployment now).syncInfo.currentHeight = 12345
    ∧ updateStatus (updateStatus st axelarNode false now).1
        { axelarNode with status := projectStatus axelarNode deployment now } true now2
        = ((updateStatus st axelarNode false now).1, [], .err) := by
  exact ⟨by simp [updateStatus, hdep], rfl, updateStatus_fail _ _ _⟩

/-- Claim C9, witness: the validator example, refreshed successfully at
clock 0 and then failing a poll at clock 1. -/
theorem C9_poll_failure_preserves_sync_info_witness :
    (updateStatus exValState exValidatorNode false 0).1.node
      = some { exValidatorNode with
                 status := projectStatus exValidatorNode (createDeployment exValidatorNode) 0 }
    ∧ (projectStatus exValidatorNode (createDeployment exValidatorNode) 0).syncInfo.currentHeight
        = 12345
    ∧ updateStatus (updateStatus exValState exValidatorNode false 0).1
        { exValidatorNode with
            status := projectStatus exValidatorNode (createDeployment exValidatorNode) 0 } true 1
        = ((updateStatus exValState exValidatorNode false 0).1, [], .err) :=
  C9_poll_failure_preserves_sync_info exValState exValidatorNode
    (createDeployment exValidatorNode) 0 1 rfl

/-- Claim C10: every successful status refresh overwrites syncInfo and
networkInfo with the fixed placeholder values 12345/12345/false and
10/"mock-node-id", the network merely echoing the spec. -/
theorem C10_placeholder_status_values (st : RState) (axelarNode : AxelarNode)
    (deployment : Deployment) (now : Nat)
    (hdep : lookupBy axelarNode.name st.deployments = some deployment) :
    (updateStatus st axelarNode false now).1.node
      = some { axelarNode with status := projectStatus axelarNode deployment now }
    ∧ (projectStatus axelarNode deployment now).syncInfo
        = { currentHeight := 12345, latestHeight := 12345, catchingUp := false
            lastSyncTime := some now }
    ∧ (projectStatus axelarNode deployment now).networkInfo
        = { peers := 10, nodeID := "mock-node-id", network := axelarNode.spec.network } := by
  exact ⟨by simp [updateStatus, hdep], rfl, rfl⟩

/-- Claim C10, witness: the placeholder values at the concrete validator
example, whose network field is testnet. -/
theorem C10_placeholder_status_values_witness :
    (updateStatus exValState exValidatorNode false 3).1.node
      = some { exValidatorNode with
                 status := projectStatus exValidatorNode (createDeployment exValidatorNode) 3 }
    ∧ (projectStatus exValidatorNode (createDeployment exValidatorNode) 3).syncInfo
        = { currentHeight := 12345, latestHeight := 12345, catchingUp := false
            lastSyncTime := some 3 }
    ∧ (projectStatus exValidatorNode (createDeployment exValidatorNode) 3).networkInfo
        = { peers := 10, nodeID := "mock-node-id", network := exValidatorNode.spec.network } :=
  C10_placeholder_status_values exValState exValidatorNode
    (createDeployment exValidatorNode) 3 rfl

/-- Reconcile's main path when the phase is still empty: the phase is first
initialized (one status write) and the convergence chain then runs against
the updated resource. -/
theorem Reconcile_steady_init (st : RState) (n : AxelarNode) (pf : Bool) (now : Nat)
    (hnode : st.node = some n) (hdel : n.deletionTimestamp = none)
    (hfin : n.finalizers.contains finalizerName = true)
    (hphase : n.status.phase = "") :
    Reconcile st pf now =
      (match reconcileAll
          { st with node := some { n with status := { n.status with phase := "Initializing" } } }
          { n with status := { n.status with phase := "Initializing" } } pf now with
       | (st', t, .ok) =>
           { st := st', trace := .updateNodeStatus :: t, res := .ok (.requeueAfter 5) }
       | (st', t, .err) =>
           { st := st', trace := .updateNodeStatus :: t, res := .err }) := by
  have hmem : finalizerName ∈ n.finalizers := by simpa using hfin
  have hds : n.deletionTimestamp.isSome = false := by simp [hdel]
  rcases hr : reconcileAll
      { st with node := some { n with status := { n.status with phase := "Initializing" } } }
      { n with status := { n.status with phase := "Initializing" } } pf now with ⟨st', t, res⟩
  cases res <;> simp [Reconcile, hnode, hds, hfin, hmem, hphase, hr]

/-- Claim C3: on the first reconciliation of a resource with no deletion
timestamp and no finalizer, the finalizer is attached and the pass returns —
the only write is the resource update, and no dependent store is touched —
and when the finalizer is already present no pass of the loop ever changes
the finalizer list again. -/
theorem C3_finalizer_before_creation (pf : Bool) (now : Nat) :
    (∀ (st : RState) (n : AxelarNode), st.node = some n → n.deletionTimestamp = none →
       n.finalizers.contains finalizerName = false →
       Reconcile st pf now =
         { st := { st with node := some { n with finalizers := n.finalizers ++ [finalizerName] } }
           trace := [.updateNode]
           res := .ok .empty })
    ∧ (∀ (st : RState) (n n' : AxelarNode), st.node = some n → n.deletionTimestamp = none →
       n.finalizers.contains finalizerName = true →
       (Reconcile st pf now).st.node = some n' → n'.finalizers = n.finalizers) := by
  constructor
  · intro st n hnode hdel hfin
    have hds : n.deletionTimestamp.isSome = false := by simp [hdel]
    have hnotmem : finalizerName ∉ n.finalizers := by simpa using hfin
    simp [Reconcile, hnode, hds, hfin, hnotmem]
  · intro st n n' hnode hdel hfin h
    by_cases hp : n.status.phase = ""
    · rw [Reconcile_steady_init st n pf now hnode hdel hfin hp] at h
      rcases hr : reconcileAll
          { st with node := some { n with status := { n.status with phase := "Initializing" } } }
          { n with status := { n.status with phase := "Initializing" } } pf now with ⟨st', t, res⟩
      rw [hr] at h
      have hcases := reconcileAll_node_cases
          { st with node := some { n with status := { n.status with phase := "Initializing" } } }
          { n with status := { n.status with phase := "Initializing" } } pf now
      rw [hr] at hcases
      simp at hcases
      cases res <;> simp at h <;>
      · rcases hcases with hc | ⟨dep, hc⟩
        · rw [h] at hc
          simp at hc
          rw [hc]
        · rw [h] at hc
          simp at hc
          rw [hc]
    · rw [Reconcile_steady st n pf now hnode hdel hfin hp] at h
      rcases hr : reconcileAll st n pf now with ⟨st', t, res⟩
      rw [hr] at h
      have hcases := reconcileAll_node_cases st n pf now
      rw [hr] at hcases
      simp at hcases
      cases res <;> simp at h <;>
      · rcases hcases with hc | ⟨dep, hc⟩
        · rw [h, hnode] at hc
          simp at hc
          rw [hc]
        · rw [h] at hc
          simp at hc
          rw [hc]

set_option maxRecDepth 100000 in
/-- Claim C3, witness: the fresh observer gets its finalizer attached with
no dependent object created, and a later pass on the converged resource
leaves the finalizer list unchanged. -/
theorem C3_finalizer_before_creation_witness :
    Reconcile exState0 false 0 =
      { st := { exState0 with
                  node := some { exObserver with finalizers := exObserver.finalizers ++ [finalizerName] } }
        trace := [.updateNode]
        res := .ok .empty }
    ∧ exNode3.finalizers = exNode2.finalizers := by
  constructor
  · exact (C3_finalizer_before_creation false 0).1 exState0 exObserver rfl rfl (by decide)
  · exact (C3_finalizer_before_creation false 2).2 exState2 exNode2 exNode3
      (by decide) rfl (by decide) (by decide)

set_option maxRecDepth 100000 in
/-- Claim C4, counterexample: a fully converged cluster still receives
mutating writes on the next pass — the config-map update is issued even
though the stored object matches the generated target byte for byte. -/
theorem C4_converged_write_counterexample :
    exState2.node = some exNode2
    ∧ converged exState2 exNode2 = true
    ∧ WriteOp.updateConfigMap ∈ (Reconcile exState2 false 2).trace
    ∧ ¬ (Reconcile exState2 false 2).trace = [] := by
  refine ⟨by decide, by decide, by decide, by decide⟩

/-- Claim C4, amended: on an already-converged resource a pass performs no
creates and short-circuits the secret, storage-claim and deployment writes,
but still unconditionally issues the config-map update, the service update
and the status update. -/
theorem C4_converged_trace_amended (st : RState) (n : AxelarNode) (now : Nat)
    (hnode : st.node = some n) (hdel : n.deletionTimestamp = none)
    (hfin : n.finalizers.contains finalizerName = true)
    (hphase : ¬ n.status.phase = "")
    (hconv : converged st n = true) :
    (Reconcile st false now).trace
      = [.updateConfigMap, .updateService, .updateNodeStatus] := by
  simp only [converged, Bool.and_eq_true, beq_iff_eq] at hconv
  obtain ⟨⟨⟨⟨⟨hc, hsec⟩, hd1⟩, hd2⟩, hsvc⟩, hdep⟩ := hconv
  have hdep2 : lookupBy n.name st.deployments = some (createDeployment n) := hdep
  rw [Reconcile_steady st n false now hnode hdel hfin hphase]
  simp [reconcileAll, andThen, reconcileConfigMap, reconcileSecret, reconcilePVC,
        createOrUpdatePVC, reconcileService, reconcileDeployment, updateStatus,
        hc, hsec, hd1, hd2, hsvc, hdep, hdep2, deploymentEqual_self]

set_option maxRecDepth 100000 in
/-- Claim C4, witness: the amended trace at the concrete converged state. -/
theorem C4_converged_trace_amended_witness :
    (Reconcile exState2 false 9).trace
      = [.updateConfigMap, .updateService, .updateNodeStatus] :=
  C4_converged_trace_amended exState2 exNode2 9 (by decide) rfl (by decide) (by decide)
    (by decide)

/-- Claim C5, counterexample: on a converged cluster the pass succeeds with
a working poll, but when only the status poll fails the whole reconciliation
returns an error, contradicting the claim that a status-poll failure does
not fail the reconciliation. -/
theorem C5_poll_failure_counterexample :
    (Reconcile exState2 false 2).res = .ok (.requeueAfter 5)
    ∧ (Reconcile exState2 true 2).res = .err := by
  constructor <;> rfl

/-- Claim C5, amended: a status-poll failure makes Reconcile return an
error; the stored resource (hence its phase) is left at its prior value. -/
theorem C5_poll_failure_amended (st : RState) (n : AxelarNode) (now : Nat)
    (hnode : st.node = some n) (hdel : n.deletionTimestamp = none)
    (hfin : n.finalizers.contains finalizerName = true)
    (hphase : ¬ n.status.phase = "") :
    (Reconcile st true now).res = .err
    ∧ (Reconcile st true now).st.node = some n := by
  have hsteady := Reconcile_steady st n true now hnode hdel hfin hphase
  obtain ⟨hn5, he5⟩ := reconcileAll_pollFails st n now
  rcases hr : reconcileAll st n true now with ⟨st', t, res⟩
  rw [hr] at hsteady hn5 he5
  simp at hn5 he5
  subst he5
  rw [hsteady]
  exact ⟨rfl, by simp [hn5, hnode]⟩

set_option maxRecDepth 100000 in
/-- Claim C5, witness: the amended behavior at the concrete converged
state. -/
theorem C5_poll_failure_amended_witness :
    (Reconcile exState2 true 2).res = .err
    ∧ (Reconcile exState2 true 2).st.node = some exNode2 :=
  C5_poll_failure_amended exState2 exNode2 2 (by decide) rfl (by decide) (by decide)

/-- Claim C6: when the credentials object for the resource already exists,
no pass of the loop — whatever branch it takes — ever changes it, for every
spec and every pre-existing content. -/
theorem C6_secret_create_only (st : RState) (n : AxelarNode) (pf : Bool) (now : Nat)
    (s : Secret) (hnode : st.node = some n)
    (hs : lookupBy (n.name ++ "-secrets") st.secrets = some s) :
    lookupBy (n.name ++ "-secrets") (Reconcile st pf now).st.secrets = some s := by
  have hs' : lookupBy (generateSecret n).name st.secrets = some s := hs
  by_cases hdel : n.deletionTimestamp.isSome
  · simp [Reconcile, hnode, hdel, handleDeletion, hs]
  · have hdel' : n.deletionTimestamp = none := Option.not_isSome_iff_eq_none.mp hdel
    by_cases hfin : n.finalizers.contains finalizerName = true
    · by_cases hp : n.status.phase = ""
      · rw [Reconcile_steady_init st n pf now hnode hdel' hfin hp]
        rcases hr : reconcileAll
            { st with node := some { n with status := { n.status with phase := "Initializing" } } }
            { n with status := { n.status with phase := "Initializing" } } pf now with ⟨st', t, res⟩
        have hsec := reconcileAll_secrets
            { st with node := some { n with status := { n.status with phase := "Initializing" } } }
            { n with status := { n.status with phase := "Initializing" } } pf now s hs'
        rw [hr] at hsec
        simp at hsec
        cases res <;> simp [hsec, hs]
      · rw [Reconcile_steady st n pf now hnode hdel' hfin hp]
        rcases hr : reconcileAll st n pf now with ⟨st', t, res⟩
        have hsec := reconcileAll_secrets st n pf now s hs'
        rw [hr] at hsec
        simp at hsec
        cases res <;> simp [hsec, hs]
    · have hfin' : n.finalizers.contains finalizerName = false := by simpa using hfin
      have hnotmem : finalizerName ∉ n.finalizers := by simpa using hfin'
      have hds : n.deletionTimestamp.isSome = false := by simp [hdel']
      simp [Reconcile, hnode, hds, hfin', hnotmem, hs]

set_option maxRecDepth 100000 in
/-- Claim C6, witness: the operator-rotated credentials survive a full
convergence pass untouched. -/
theorem C6_secret_create_only_witness :
    lookupBy (exNode2.name ++ "-secrets") (Reconcile exStateWithSecret false 5).st.secrets
      = some exCustomSecret :=
  C6_secret_create_only exStateWithSecret exNode2 false 5 exCustomSecret rfl (by decide)

/-- Claim C8, counterexample: a validator resource after a successful status
refresh still has validatorInfo null — updateStatus never populates it — so
the claimed "non-null iff validator and a successful refresh" fails in the
only-if-to-if direction. -/
theorem C8_validatorInfo_counterexample :
    exValidatorNode.spec.nodeType = "validator"
    ∧ exValidatorNode.spec.validator = some exValidatorSub
    ∧ (updateStatus exValState exValidatorNode false 0).2.2 = .ok
    ∧ (updateStatus exValState exValidatorNode false 0).1.node
        = some { exValidatorNode with
                   status := projectStatus exValidatorNode (createDeployment exValidatorNode) 0 }
    ∧ (projectStatus exValidatorNode (createDeployment exValidatorNode) 0).validatorInfo
        = none := by
  refine ⟨rfl, rfl, rfl, rfl, rfl⟩

/-- Claim C8, amended: the controller never populates validatorInfo — every
pass of the loop preserves its prior value (null from creation on),
regardless of kind and of successful refreshes. -/
theorem C8_validatorInfo_amended (st : RState) (n : AxelarNode) (pf : Bool) (now : Nat)
    (hnode : st.node = some n) :
    ∀ n', (Reconcile st pf now).st.node = some n' →
      n'.status.validatorInfo = n.status.validatorInfo := by
  intro n' h
  by_cases hdel : n.deletionTimestamp.isSome
  · simp [Reconcile, hnode, hdel, handleDeletion] at h
    simp [← h]
  · have hdel' : n.deletionTimestamp = none := Option.not_isSome_iff_eq_none.mp hdel
    by_cases hfin : n.finalizers.contains finalizerName = true
    · by_cases hp : n.status.phase = ""
      · rw [Reconcile_steady_init st n pf now hnode hdel' hfin hp] at h
        rcases hr : reconcileAll
            { st with node := some { n with status := { n.status with phase := "Initializing" } } }
            { n with status := { n.status with phase := "Initializing" } } pf now with ⟨st', t, res⟩
        rw [hr] at h
        have hcases := reconcileAll_node_cases
            { st with node := some { n with status := { n.status with phase := "Initializing" } } }
            { n with status := { n.status with phase := "Initializing" } } pf now
        rw [hr] at hcases
        simp at hcases
        cases res <;> simp at h <;>
        · rcases hcases with hc | ⟨dep, hc⟩ <;>
            (rw [h] at hc; simp at hc; simp [hc, projectStatus])
      · rw [Reconcile_steady st n pf now hnode hdel' hfin hp] at h
        rcases hr : reconcileAll st n pf now with ⟨st', t, res⟩
        rw [hr] at h
        have hcases := reconcileAll_node_cases st n pf now
        rw [hr] at hcases
        simp at hcases
        cases res <;> simp at h <;>
        · rcases hcases with hc | ⟨dep, hc⟩
          · rw [h, hnode] at hc
            simp at hc
            simp [hc]
          · rw [h] at hc
            simp at hc
            simp [hc, projectStatus]
    · have hfin' : n.finalizers.contains finalizerName = false := by simpa using hfin
      have hnotmem : finalizerName ∉ n.finalizers := by simpa using hfin'
      have hds : n.deletionTimestamp.isSome = false := by simp [hdel']
      simp [Reconcile, hnode, hds, hfin', hnotmem] at h
      simp [← h]

/-- Claim C8, witness: the amended preservation at the concrete validator
resource (validatorInfo stays null across the pass). -/
theorem C8_validatorInfo_amended_witness :
    ({ exValidatorNode with finalizers := exValidatorNode.finalizers ++ [finalizerName] }
        : AxelarNode).status.validatorInfo
      = exValidatorNode.status.validatorInfo :=
  C8_validatorInfo_amended exValState exValidatorNode false 0 rfl
    { exValidatorNode with finalizers := exValidatorNode.finalizers ++ [finalizerName] } rfl
